import Mathlib

/-!
Verification of the bouncing-ball physics core (`src/main.mjs`).

The simulation state is the `Ball` class: position, velocity, a per-frame
acceleration accumulator, inverse mass, restitution and radius.  All numeric
fields are embedded as rationals (`ℚ`), giving the exact arithmetic the
specification's laws are stated in.  The one non-rational input is the mass
passed to the constructor, which in JavaScript may be `Infinity`; it is
embedded as `MassVal`, with `isFinite` and the `mass <= 0` test translated
from the constructor's guard.
-/

/-- A 2D vector, mirroring the `Vector2` interface `{x, y}` of the source. -/
structure Vec2 where
  x : ℚ
  y : ℚ
  deriving DecidableEq, Repr

/-- The `Ball` class state: `position`, `velocity`, `acceleration`
(the per-frame accumulator), `_inverseMass`, `restitution`, `radius`. -/
structure Ball where
  position : Vec2
  velocity : Vec2
  acceleration : Vec2
  inverseMass : ℚ
  restitution : ℚ
  radius : ℚ
  deriving DecidableEq, Repr

/-- A JavaScript number used as a mass: either a finite rational or
`Infinity`.  (`NaN` and `-Infinity` also fail `isFinite`; `inf` stands for
any non-finite input, which the constructor treats uniformly.) -/
inductive MassVal where
  | fin (q : ℚ)
  | inf
  deriving DecidableEq, Repr

/-- `isFinite(mass)` on a `MassVal`. -/
def MassVal.isFinite : MassVal → Bool
  | .fin _ => true
  | .inf => false

/-- The constructor's guard `!isFinite(mass) || mass <= 0` and the resulting
`_inverseMass`: `0` when the guard holds, `1 / mass` otherwise. -/
def MassVal.toInverseMass : MassVal → ℚ
  | .inf => 0
  | .fin m => if m ≤ 0 then 0 else 1 / m

/-- The `Ball` constructor (`src/main.mjs` lines 8–20).  `position := (x,y)`,
`velocity` copied from `initialVelocity`, `acceleration := (0,0)`,
`_inverseMass` from the mass guard, `restitution` and `radius` stored. -/
def mkBall (x y radius : ℚ) (mass : MassVal) (restitution : ℚ)
    (initialVelocity : Vec2) : Ball :=
  { position := ⟨x, y⟩
    velocity := initialVelocity
    acceleration := ⟨0, 0⟩
    inverseMass := mass.toInverseMass
    restitution := restitution
    radius := radius }

/-- `Ball.applyForce` (lines 29–34): no-op when `inverseMass <= 0`, else
`acceleration += force * inverseMass` componentwise. -/
def Ball.applyForce (b : Ball) (force : Vec2) : Ball :=
  if b.inverseMass ≤ 0 then b
  else
    { b with acceleration :=
        ⟨b.acceleration.x + force.x * b.inverseMass,
         b.acceleration.y + force.y * b.inverseMass⟩ }

/-- `Ball.applyGravity` (lines 35–40): no-op when `_inverseMass <= 0`, else
applies the force `(0, (1 / _inverseMass) * g)`. -/
def Ball.applyGravity (b : Ball) (g : ℚ) : Ball :=
  if b.inverseMass ≤ 0 then b
  else b.applyForce ⟨0, 1 / b.inverseMass * g⟩

/-- `Ball.update` (lines 53–62): no-op when `_inverseMass <= 0`; otherwise
`velocity += acceleration * dt`, then `position += velocity * dt` with the
already-updated velocity, then the accumulator is reset to `(0,0)`. -/
def Ball.update (b : Ball) (dt : ℚ) : Ball :=
  if b.inverseMass ≤ 0 then b
  else
    let vx := b.velocity.x + b.acceleration.x * dt
    let vy := b.velocity.y + b.acceleration.y * dt
    { b with
      velocity := ⟨vx, vy⟩
      position := ⟨b.position.x + vx * dt, b.position.y + vy * dt⟩
      acceleration := ⟨0, 0⟩ }

/-- The X-axis block of `Ball.checkCollisions` (lines 64–71): an if/else-if
pair for the left and right boundaries. -/
def Ball.collideX (b : Ball) (width : ℚ) : Ball :=
  if b.position.x - b.radius < 0 then
    { b with
      position := ⟨b.radius, b.position.y⟩
      velocity := ⟨-b.velocity.x * b.restitution, b.velocity.y⟩ }
  else if b.position.x + b.radius > width then
    { b with
      position := ⟨width - b.radius, b.position.y⟩
      velocity := ⟨-b.velocity.x * b.restitution, b.velocity.y⟩ }
  else b

/-- The Y-axis block of `Ball.checkCollisions` (lines 72–79): an if/else-if
pair for the top and bottom boundaries. -/
def Ball.collideY (b : Ball) (height : ℚ) : Ball :=
  if b.position.y - b.radius < 0 then
    { b with
      position := ⟨b.position.x, b.radius⟩
      velocity := ⟨b.velocity.x, -b.velocity.y * b.restitution⟩ }
  else if b.position.y + b.radius > height then
    { b with
      position := ⟨b.position.x, height - b.radius⟩
      velocity := ⟨b.velocity.x, -b.velocity.y * b.restitution⟩ }
  else b

/-- `Ball.checkCollisions` (lines 63–80) against a canvas of the given
`width` and `height`: the X-axis if/else-if block runs first, then the Y-axis
block runs on the resulting state. -/
def Ball.checkCollisions (b : Ball) (width height : ℚ) : Ball :=
  (b.collideX width).collideY height

/-- `Math.sign`: `1` for positive, `-1` for negative, `0` for zero. -/
def jsSign (q : ℚ) : ℚ :=
  if 0 < q then 1 else if q < 0 then -1 else 0

/-- The ground-friction block of `gameLoop` (lines 114–126): when the ball's
lower extent is within `0.5` of the bottom edge and the ball is movable,
either apply the Coulomb friction force
`-sign(velocity.x) * (frictionCoeff * mass * gravityForce)` (when
`|velocity.x| > 0.001`) or hard-clamp `velocity.x` to `0`.  Inside the guard
`inverseMass > 0`, so the `mass` getter returns `1 / inverseMass`. -/
def groundFrictionStep (b : Ball) (height frictionCoeff gravityForce : ℚ) :
    Ball :=
  if b.position.y + b.radius ≥ height - 1/2 ∧ 0 < b.inverseMass then
    if 1/1000 < |b.velocity.x| then
      b.applyForce
        ⟨-jsSign b.velocity.x * (frictionCoeff * (1 / b.inverseMass) * gravityForce), 0⟩
    else { b with velocity := ⟨0, b.velocity.y⟩ }
  else b

/-- The mutating entry points a frame driver may invoke on a ball:
`applyForce`, `applyGravity`, `update`.  (`applyAirResistance` routes through
`applyForce` and is likewise a no-op on immovable bodies.) -/
inductive Op where
  | force (f : Vec2)
  | gravity (g : ℚ)
  | upd (dt : ℚ)
  deriving Repr

/-- Apply one entry-point call. -/
def Ball.applyOp (b : Ball) : Op → Ball
  | .force f => b.applyForce f
  | .gravity g => b.applyGravity g
  | .upd dt => b.update dt

/-- Apply a sequence of entry-point calls in order. -/
def Ball.applyOps (b : Ball) (ops : List Op) : Ball :=
  ops.foldl Ball.applyOp b

/-! ### Basic lemmas -/

/-- The constructor never produces a negative inverse mass. -/
theorem toInverseMass_nonneg (m : MassVal) : 0 ≤ m.toInverseMass := by
  rcases m with q | _
  · simp only [MassVal.toInverseMass]
    split
    · exact le_refl 0
    · rename_i hq
      exact le_of_lt (div_pos one_pos (lt_of_not_le hq))
  · exact le_refl 0

/-- Every entry point is the identity on an immovable ball. -/
theorem applyOp_immovable (b : Ball) (op : Op) (h : b.inverseMass = 0) :
    b.applyOp op = b := by
  cases op <;>
    simp [Ball.applyOp, Ball.applyForce, Ball.applyGravity, Ball.update, h]

/-- A sequence of entry-point calls is the identity on an immovable ball. -/
theorem applyOps_immovable (b : Ball) (ops : List Op) (h : b.inverseMass = 0) :
    b.applyOps ops = b := by
  induction ops with
  | nil => rfl
  | cons op ops ih =>
      simp only [Ball.applyOps, List.foldl_cons] at *
      rw [applyOp_immovable b op h, ih]

/-- No entry point changes the inverse mass. -/
theorem applyOp_inverseMass (b : Ball) (op : Op) :
    (b.applyOp op).inverseMass = b.inverseMass := by
  cases op <;>
    simp only [Ball.applyOp, Ball.applyForce, Ball.applyGravity, Ball.update] <;>
    split <;> simp

/-- No sequence of entry-point calls changes the inverse mass. -/
theorem applyOps_inverseMass (b : Ball) (ops : List Op) :
    (b.applyOps ops).inverseMass = b.inverseMass := by
  induction ops generalizing b with
  | nil => rfl
  | cons op ops ih =>
      simp only [Ball.applyOps, List.foldl_cons] at *
      rw [ih, applyOp_inverseMass]

/-! ### Claims -/

/-- C1.  For every movable ball (`inverseMass > 0`) and every `dt`, `update`
performs semi-implicit Euler: the new velocity is
`velocity + acceleration * dt`, and the new position is
`position + (updated velocity) * dt` — the position update uses the
already-updated velocity, so the velocity update precedes it. -/
theorem update_semi_implicit_euler (b : Ball) (dt : ℚ)
    (h : 0 < b.inverseMass) :
    (b.update dt).velocity =
        ⟨b.velocity.x + b.acceleration.x * dt,
         b.velocity.y + b.acceleration.y * dt⟩ ∧
    (b.update dt).position =
        ⟨b.position.x + (b.velocity.x + b.acceleration.x * dt) * dt,
         b.position.y + (b.velocity.y + b.acceleration.y * dt) * dt⟩ := by
  have h' : ¬ b.inverseMass ≤ 0 := not_le.mpr h
  simp [Ball.update, h']

/-- Witness for C1 at a concrete movable ball. -/
theorem update_semi_implicit_euler_witness :
    ((⟨⟨1, 2⟩, ⟨3, 4⟩, ⟨5, 6⟩, 1/5, 7/10, 50⟩ : Ball).update 2).velocity =
        ⟨3 + 5 * 2, 4 + 6 * 2⟩ ∧
    ((⟨⟨1, 2⟩, ⟨3, 4⟩, ⟨5, 6⟩, 1/5, 7/10, 50⟩ : Ball).update 2).position =
        ⟨1 + (3 + 5 * 2) * 2, 2 + (4 + 6 * 2) * 2⟩ :=
  update_semi_implicit_euler ⟨⟨1, 2⟩, ⟨3, 4⟩, ⟨5, 6⟩, 1/5, 7/10, 50⟩ 2
    (by norm_num)

/-- C8.  For every movable ball and every `g`, `applyGravity g` increases
`acceleration.y` by exactly `g` and leaves `acceleration.x` unchanged,
independently of the mass: `(1 / inverseMass) * g * inverseMass = g`. -/
theorem applyGravity_mass_independent (b : Ball) (g : ℚ)
    (h : 0 < b.inverseMass) :
    (b.applyGravity g).acceleration.y = b.acceleration.y + g ∧
    (b.applyGravity g).acceleration.x = b.acceleration.x := by
  have h' : ¬ b.inverseMass ≤ 0 := not_le.mpr h
  have hne : b.inverseMass ≠ 0 := ne_of_gt h
  constructor
  · simp [Ball.applyGravity, Ball.applyForce, h']
    field_simp
  · simp [Ball.applyGravity, Ball.applyForce, h']

/-- Witness for C8 at a concrete movable ball. -/
theorem applyGravity_mass_independent_witness :
    ((⟨⟨1, 2⟩, ⟨3, 4⟩, ⟨5, 6⟩, 1/5, 7/10, 50⟩ : Ball).applyGravity
        600).acceleration.y = 6 + 600 ∧
    ((⟨⟨1, 2⟩, ⟨3, 4⟩, ⟨5, 6⟩, 1/5, 7/10, 50⟩ : Ball).applyGravity
        600).acceleration.x = 5 :=
  applyGravity_mass_independent ⟨⟨1, 2⟩, ⟨3, 4⟩, ⟨5, 6⟩, 1/5, 7/10, 50⟩ 600
    (by norm_num)

/-- C4.  Constructing a ball with `mass = 0`, `mass = -5`, or
`mass = Infinity` yields `inverseMass = 0`, and every subsequent sequence of
`applyForce` / `applyGravity` / `update` calls on a ball with
`inverseMass = 0` leaves position and velocity unchanged. -/
theorem immovable_bodies_frozen :
    (∀ x y r e v, (mkBall x y r (.fin 0) e v).inverseMass = 0 ∧
        (mkBall x y r (.fin (-5)) e v).inverseMass = 0 ∧
        (mkBall x y r .inf e v).inverseMass = 0) ∧
    (∀ (b : Ball) (ops : List Op), b.inverseMass = 0 →
        (b.applyOps ops).position = b.position ∧
        (b.applyOps ops).velocity = b.velocity) := by
  constructor
  · intro x y r e v
    refine ⟨?_, ?_, ?_⟩ <;> simp [mkBall, MassVal.toInverseMass]
  · intro b ops h
    rw [applyOps_immovable b ops h]
    exact ⟨rfl, rfl⟩

/-- Witness for C4: a concrete immovable ball is frozen under a concrete
sequence of calls. -/
theorem immovable_bodies_frozen_witness :
    (mkBall 1 2 50 (.fin 0) (7/10) ⟨3, 4⟩).inverseMass = 0 ∧
    ((mkBall 1 2 50 (.fin 0) (7/10) ⟨3, 4⟩).applyOps
        [.force ⟨10, 20⟩, .gravity 600, .upd (1/60)]).position = ⟨1, 2⟩ ∧
    ((mkBall 1 2 50 (.fin 0) (7/10) ⟨3, 4⟩).applyOps
        [.force ⟨10, 20⟩, .gravity 600, .upd (1/60)]).velocity = ⟨3, 4⟩ := by
  have h0 := (immovable_bodies_frozen.1 1 2 50 (7/10) (⟨3, 4⟩ : Vec2)).1
  have h1 := immovable_bodies_frozen.2 (mkBall 1 2 50 (.fin 0) (7/10) ⟨3, 4⟩)
    [.force ⟨10, 20⟩, .gravity 600, .upd (1/60)] h0
  refine ⟨h0, ?_, ?_⟩
  · rw [h1.1]; rfl
  · rw [h1.2]; rfl

/-- C5.  For every constructed ball, after any sequence of entry-point calls
(however many forces were applied), a call of `update dt` leaves the
acceleration accumulator exactly `(0,0)`: movable balls have it reset by
`update`, and immovable balls never accumulate anything in the first
place. -/
theorem update_drains_acceleration (x y r : ℚ) (m : MassVal) (e : ℚ)
    (v : Vec2) (ops : List Op) (dt : ℚ) :
    (((mkBall x y r m e v).applyOps ops).update dt).acceleration = ⟨0, 0⟩ := by
  have hinv : ((mkBall x y r m e v).applyOps ops).inverseMass =
      m.toInverseMass := applyOps_inverseMass _ _
  rcases le_or_lt ((mkBall x y r m e v).applyOps ops).inverseMass 0 with hle | hlt
  · have h0 : m.toInverseMass = 0 := by
      rw [hinv] at hle
      exact le_antisymm hle (toInverseMass_nonneg m)
    have hmk0 : (mkBall x y r m e v).inverseMass = 0 := h0
    rw [applyOps_immovable _ ops hmk0]
    simp only [Ball.update, mkBall]
    split <;> rfl
  · simp [Ball.update, not_le.mpr hlt]

/-! ### Collision lemmas -/

/-- The X-axis block never touches the Y components, the radius or the
restitution. -/
theorem collideX_y_untouched (b : Ball) (w : ℚ) :
    (b.collideX w).position.y = b.position.y ∧
    (b.collideX w).velocity.y = b.velocity.y ∧
    (b.collideX w).radius = b.radius ∧
    (b.collideX w).restitution = b.restitution := by
  simp only [Ball.collideX]
  split_ifs <;> exact ⟨rfl, rfl, rfl, rfl⟩

/-- The Y-axis block never touches the X components, the radius or the
restitution. -/
theorem collideY_x_untouched (b : Ball) (h : ℚ) :
    (b.collideY h).position.x = b.position.x ∧
    (b.collideY h).velocity.x = b.velocity.x ∧
    (b.collideY h).radius = b.radius ∧
    (b.collideY h).restitution = b.restitution := by
  simp only [Ball.collideY]
  split_ifs <;> exact ⟨rfl, rfl, rfl, rfl⟩

/-- When the ball fits horizontally (`2 * radius ≤ width`), the X block puts
`position.x` inside `[radius, width - radius]`. -/
theorem collideX_bounds (b : Ball) (w : ℚ) (h2 : 2 * b.radius ≤ w) :
    b.radius ≤ (b.collideX w).position.x ∧
    (b.collideX w).position.x ≤ w - b.radius := by
  simp only [Ball.collideX]
  split_ifs with hl hr
  · exact ⟨le_refl _, show b.radius ≤ w - b.radius by linarith⟩
  · exact ⟨show b.radius ≤ w - b.radius by linarith, le_refl _⟩
  · push_neg at hl hr
    exact ⟨show b.radius ≤ b.position.x by linarith,
      show b.position.x ≤ w - b.radius by linarith⟩

/-- When the ball fits vertically (`2 * radius ≤ height`), the Y block puts
`position.y` inside `[radius, height - radius]`. -/
theorem collideY_bounds (b : Ball) (h : ℚ) (h2 : 2 * b.radius ≤ h) :
    b.radius ≤ (b.collideY h).position.y ∧
    (b.collideY h).position.y ≤ h - b.radius := by
  simp only [Ball.collideY]
  split_ifs with ht hb
  · exact ⟨le_refl _, show b.radius ≤ h - b.radius by linarith⟩
  · exact ⟨show b.radius ≤ h - b.radius by linarith, le_refl _⟩
  · push_neg at ht hb
    exact ⟨show b.radius ≤ b.position.y by linarith,
      show b.position.y ≤ h - b.radius by linarith⟩

/-- The X block is the identity when the ball's horizontal extent is already
inside the boundary. -/
theorem collideX_noop (b : Ball) (w : ℚ) (h1 : b.radius ≤ b.position.x)
    (h2 : b.position.x + b.radius ≤ w) : b.collideX w = b := by
  simp only [Ball.collideX]
  rw [if_neg (not_lt.mpr (show (0:ℚ) ≤ b.position.x - b.radius by linarith)),
    if_neg (not_lt.mpr h2)]

/-- The Y block is the identity when the ball's vertical extent is already
inside the boundary. -/
theorem collideY_noop (b : Ball) (h : ℚ) (h1 : b.radius ≤ b.position.y)
    (h2 : b.position.y + b.radius ≤ h) : b.collideY h = b := by
  simp only [Ball.collideY]
  rw [if_neg (not_lt.mpr (show (0:ℚ) ≤ b.position.y - b.radius by linarith)),
    if_neg (not_lt.mpr h2)]

/-- Whenever the bottom boundary is penetrated, the Y block reflects the
vertical velocity (the top branch, if it fires instead, applies the same
reflection formula). -/
theorem collideY_velocity_y_pen (b : Ball) (h : ℚ)
    (hpen : b.position.y + b.radius > h) :
    (b.collideY h).velocity.y = -b.velocity.y * b.restitution := by
  simp only [Ball.collideY]
  split_ifs with ht
  · rfl
  · rfl

/-- `checkCollisions` never changes the radius. -/
theorem checkCollisions_radius (b : Ball) (w h : ℚ) :
    (b.checkCollisions w h).radius = b.radius := by
  rw [Ball.checkCollisions, (collideY_x_untouched _ h).2.2.1,
    (collideX_y_untouched b w).2.2.1]

/-- When the left boundary is penetrated, the X block clamps to `radius` and
reflects the horizontal velocity. -/
theorem collideX_left (b : Ball) (w : ℚ) (hl : b.position.x - b.radius < 0) :
    (b.collideX w).position.x = b.radius ∧
    (b.collideX w).velocity.x = -b.velocity.x * b.restitution := by
  simp only [Ball.collideX]
  rw [if_pos hl]
  exact ⟨rfl, rfl⟩

/-- When the top boundary is penetrated, the Y block clamps to `radius` and
reflects the vertical velocity. -/
theorem collideY_top (b : Ball) (h : ℚ) (ht : b.position.y - b.radius < 0) :
    (b.collideY h).position.y = b.radius ∧
    (b.collideY h).velocity.y = -b.velocity.y * b.restitution := by
  simp only [Ball.collideY]
  rw [if_pos ht]
  exact ⟨rfl, rfl⟩

/-- When the ball fits in the boundary on both axes, one `checkCollisions`
call puts its whole extent inside the boundary. -/
theorem checkCollisions_bounds (b : Ball) (w h : ℚ)
    (h2w : 2 * b.radius ≤ w) (h2h : 2 * b.radius ≤ h) :
    b.radius ≤ (b.checkCollisions w h).position.x ∧
    (b.checkCollisions w h).position.x ≤ w - b.radius ∧
    b.radius ≤ (b.checkCollisions w h).position.y ∧
    (b.checkCollisions w h).position.y ≤ h - b.radius := by
  rw [Ball.checkCollisions]
  have hx := collideX_bounds b w h2w
  have hrad : (b.collideX w).radius = b.radius := (collideX_y_untouched b w).2.2.1
  have hy := collideY_bounds (b.collideX w) h (by rw [hrad]; exact h2h)
  have hxpres := collideY_x_untouched (b.collideX w) h
  rw [hrad] at hy
  exact ⟨by rw [hxpres.1]; exact hx.1, by rw [hxpres.1]; exact hx.2, hy.1, hy.2⟩

/-- A ball that penetrates the bottom boundary while falling but also
penetrates the left boundary: `position = (0, 600)`, `velocity = (200, 50)`,
`radius = 50`, `restitution = 7/10`. -/
def sideOverlapBall : Ball := ⟨⟨0, 600⟩, ⟨200, 50⟩, ⟨0, 0⟩, 1/5, 7/10, 50⟩

/-- C2 counterexample.  The claim's precondition only constrains the Y axis,
but `checkCollisions` also runs the X-axis block: this falling ball
(`position.y + radius = 650 > 600`, `velocity.y = 50 > 0`) also overlaps the
left wall, so its horizontal velocity is reflected (`200 ↦ -140`), not left
unchanged. -/
theorem bottom_bounce_velocity_x_cex :
    sideOverlapBall.position.y + sideOverlapBall.radius > 600 ∧
    0 < sideOverlapBall.velocity.y ∧
    (sideOverlapBall.checkCollisions 800 600).velocity.x ≠
      sideOverlapBall.velocity.x := by
  refine ⟨by norm_num [sideOverlapBall], by norm_num [sideOverlapBall], ?_⟩
  norm_num [sideOverlapBall, Ball.checkCollisions, Ball.collideX, Ball.collideY]

/-- C2 (amended).  A ball that penetrates the bottom boundary with downward
speed `v = velocity.y > 0` — and whose horizontal extent lies inside the side
boundaries, so the X-axis block does not fire — leaves `checkCollisions` with
`velocity.y = -(v * restitution)` (upward speed `v * restitution`) and
`velocity.x` unchanged. -/
theorem bottom_bounce_restitution (b : Ball) (w h : ℚ)
    (hpen : b.position.y + b.radius > h)
    (_hv : 0 < b.velocity.y)
    (hx1 : b.radius ≤ b.position.x)
    (hx2 : b.position.x + b.radius ≤ w) :
    (b.checkCollisions w h).velocity.y = -(b.velocity.y * b.restitution) ∧
    (b.checkCollisions w h).velocity.x = b.velocity.x := by
  rw [Ball.checkCollisions, collideX_noop b w hx1 hx2]
  constructor
  · rw [collideY_velocity_y_pen b h hpen, neg_mul]
  · exact (collideY_x_untouched b h).2.1

/-- Witness for the amended C2 at a concrete falling ball away from the side
walls. -/
theorem bottom_bounce_restitution_witness :
    ((⟨⟨400, 600⟩, ⟨200, 50⟩, ⟨0, 0⟩, 1/5, 7/10, 50⟩ : Ball).checkCollisions
        800 600).velocity.y = -(50 * (7/10)) ∧
    ((⟨⟨400, 600⟩, ⟨200, 50⟩, ⟨0, 0⟩, 1/5, 7/10, 50⟩ : Ball).checkCollisions
        800 600).velocity.x = 200 :=
  bottom_bounce_restitution ⟨⟨400, 600⟩, ⟨200, 50⟩, ⟨0, 0⟩, 1/5, 7/10, 50⟩
    800 600 (by norm_num) (by norm_num) (by norm_num) (by norm_num)

/-- A ball of radius 50 in a canvas of width 60: it cannot fit, so the
position clamp cannot hold. -/
def wideBall : Ball := ⟨⟨0, 300⟩, ⟨0, 0⟩, ⟨0, 0⟩, 1/5, 7/10, 50⟩

/-- C3 counterexample.  With `radius = 50` and `width = 60` (body wider than
the canvas), after `checkCollisions` the position is clamped to the left wall
(`position.x = 50`), which violates `position.x ≤ width - radius = 10`: the
claim fails without a precondition relating radius and boundary size. -/
theorem position_clamp_cex :
    ¬ ((wideBall.checkCollisions 60 600).position.x ≤ 60 - wideBall.radius) := by
  norm_num [wideBall, Ball.checkCollisions, Ball.collideX, Ball.collideY]

/-- C3 (amended).  When the ball fits in the boundary (`2*radius ≤ width` and
`2*radius ≤ height`), one `checkCollisions` call puts the whole extent inside:
`radius ≤ position.x ≤ width - radius` and
`radius ≤ position.y ≤ height - radius`. -/
theorem checkCollisions_position_clamp (b : Ball) (w h : ℚ)
    (h2w : 2 * b.radius ≤ w) (h2h : 2 * b.radius ≤ h) :
    b.radius ≤ (b.checkCollisions w h).position.x ∧
    (b.checkCollisions w h).position.x ≤ w - b.radius ∧
    b.radius ≤ (b.checkCollisions w h).position.y ∧
    (b.checkCollisions w h).position.y ≤ h - b.radius :=
  checkCollisions_bounds b w h h2w h2h

/-- Witness for the amended C3 at a concrete ball far outside an 800×600
canvas. -/
theorem checkCollisions_position_clamp_witness :
    (50:ℚ) ≤ ((⟨⟨-100, 1000⟩, ⟨5, 6⟩, ⟨0, 0⟩, 1/5, 7/10, 50⟩ :
        Ball).checkCollisions 800 600).position.x ∧
    ((⟨⟨-100, 1000⟩, ⟨5, 6⟩, ⟨0, 0⟩, 1/5, 7/10, 50⟩ :
        Ball).checkCollisions 800 600).position.x ≤ 800 - 50 ∧
    (50:ℚ) ≤ ((⟨⟨-100, 1000⟩, ⟨5, 6⟩, ⟨0, 0⟩, 1/5, 7/10, 50⟩ :
        Ball).checkCollisions 800 600).position.y ∧
    ((⟨⟨-100, 1000⟩, ⟨5, 6⟩, ⟨0, 0⟩, 1/5, 7/10, 50⟩ :
        Ball).checkCollisions 800 600).position.y ≤ 600 - 50 :=
  checkCollisions_position_clamp ⟨⟨-100, 1000⟩, ⟨5, 6⟩, ⟨0, 0⟩, 1/5, 7/10, 50⟩
    800 600 (by norm_num) (by norm_num)

/-- C6.  In one `checkCollisions` call, each axis's if/else-if pair applies at
most one boundary correction; when both boundaries of an axis are penetrated,
the left (respectively top) correction wins: the position is clamped to
`radius` (not `width - radius` / `height - radius`) and the velocity is
reflected exactly once. -/
theorem left_top_priority (b : Ball) (w h : ℚ) :
    (b.position.x - b.radius < 0 → b.position.x + b.radius > w →
      (b.checkCollisions w h).position.x = b.radius ∧
      (b.checkCollisions w h).velocity.x = -b.velocity.x * b.restitution) ∧
    (b.position.y - b.radius < 0 → b.position.y + b.radius > h →
      (b.checkCollisions w h).position.y = b.radius ∧
      (b.checkCollisions w h).velocity.y = -b.velocity.y * b.restitution) := by
  constructor
  · intro hxl _
    have hX := collideX_left b w hxl
    rw [Ball.checkCollisions]
    constructor
    · rw [(collideY_x_untouched _ h).1, hX.1]
    · rw [(collideY_x_untouched _ h).2.1, hX.2]
  · intro hyt _
    rw [Ball.checkCollisions]
    have hxy := collideX_y_untouched b w
    have ht' : (b.collideX w).position.y - (b.collideX w).radius < 0 := by
      rw [hxy.1, hxy.2.2.1]; exact hyt
    have hY := collideY_top (b.collideX w) h ht'
    constructor
    · rw [hY.1, hxy.2.2.1]
    · rw [hY.2, hxy.2.1, hxy.2.2.2]

/-- A ball of radius 50 overlapping all four boundaries of a 60×60 canvas. -/
def bigBall : Ball := ⟨⟨30, 30⟩, ⟨3, 4⟩, ⟨0, 0⟩, 1/5, 1/2, 50⟩

/-- Witness for C6: the ball overlaps both boundaries on each axis and gets
the left/top corrections. -/
theorem left_top_priority_witness :
    ((bigBall.checkCollisions 60 60).position.x = bigBall.radius ∧
      (bigBall.checkCollisions 60 60).velocity.x =
        -bigBall.velocity.x * bigBall.restitution) ∧
    ((bigBall.checkCollisions 60 60).position.y = bigBall.radius ∧
      (bigBall.checkCollisions 60 60).velocity.y =
        -bigBall.velocity.y * bigBall.restitution) :=
  ⟨(left_top_priority bigBall 60 60).1 (by norm_num [bigBall])
      (by norm_num [bigBall]),
    (left_top_priority bigBall 60 60).2 (by norm_num [bigBall])
      (by norm_num [bigBall])⟩

/-- C9.  When the ball fits in the boundary, `checkCollisions` is idempotent:
a second call with the same bounds changes nothing (the first call leaves the
extent inside, so no condition fires again). -/
theorem checkCollisions_idempotent (b : Ball) (w h : ℚ)
    (h2w : 2 * b.radius ≤ w) (h2h : 2 * b.radius ≤ h) :
    (b.checkCollisions w h).checkCollisions w h = b.checkCollisions w h := by
  have hrad := checkCollisions_radius b w h
  have hb := checkCollisions_bounds b w h h2w h2h
  have hX : (b.checkCollisions w h).collideX w = b.checkCollisions w h :=
    collideX_noop _ w (by rw [hrad]; exact hb.1)
      (by rw [hrad]; linarith [hb.2.1])
  have hY : (b.checkCollisions w h).collideY h = b.checkCollisions w h :=
    collideY_noop _ h (by rw [hrad]; exact hb.2.2.1)
      (by rw [hrad]; linarith [hb.2.2.2])
  show ((b.checkCollisions w h).collideX w).collideY h = b.checkCollisions w h
  rw [hX, hY]

/-- Witness for C9 at a concrete ball far outside an 800×600 canvas. -/
theorem checkCollisions_idempotent_witness :
    (((⟨⟨-100, 1000⟩, ⟨5, 6⟩, ⟨0, 0⟩, 1/5, 7/10, 50⟩ :
        Ball).checkCollisions 800 600).checkCollisions 800 600) =
      (⟨⟨-100, 1000⟩, ⟨5, 6⟩, ⟨0, 0⟩, 1/5, 7/10, 50⟩ :
        Ball).checkCollisions 800 600 :=
  checkCollisions_idempotent ⟨⟨-100, 1000⟩, ⟨5, 6⟩, ⟨0, 0⟩, 1/5, 7/10, 50⟩
    800 600 (by norm_num) (by norm_num)

/-- C10.  The Y-axis reflection is triggered by position alone, not by the
velocity's direction: any ball with `position.y + radius > height` and
`position.y - radius ≥ 0` gets `velocity.y` set to
`-velocity.y * restitution`, even when `velocity.y` is already negative
(moving away from the bottom wall). -/
theorem position_based_reflection (b : Ball) (w h : ℚ)
    (hpen : b.position.y + b.radius > h)
    (_htop : 0 ≤ b.position.y - b.radius) :
    (b.checkCollisions w h).velocity.y = -b.velocity.y * b.restitution := by
  rw [Ball.checkCollisions]
  have hxy := collideX_y_untouched b w
  have hpen' : (b.collideX w).position.y + (b.collideX w).radius > h := by
    rw [hxy.1, hxy.2.2.1]; exact hpen
  rw [collideY_velocity_y_pen _ h hpen', hxy.2.1, hxy.2.2.2]

/-- Witness for C10: a ball overlapping the bottom wall while already moving
upward (`velocity.y = -30`) still gets reflected, back toward the wall. -/
theorem position_based_reflection_witness :
    ((⟨⟨400, 600⟩, ⟨0, -30⟩, ⟨0, 0⟩, 1/5, 7/10, 50⟩ :
        Ball).checkCollisions 800 600).velocity.y = -(-30) * (7/10) :=
  position_based_reflection ⟨⟨400, 600⟩, ⟨0, -30⟩, ⟨0, 0⟩, 1/5, 7/10, 50⟩
    800 600 (by norm_num) (by norm_num)

/-- C7.  For a movable ball whose lower extent is within `0.5` of the bottom
edge, the frame driver's friction block either (when `|velocity.x| > 0.001`)
adds to the accumulator the force
`-sign(velocity.x) * (frictionCoeff * mass * gravityForce)` — whose net
acceleration contribution is `-sign(velocity.x) * frictionCoeff *
gravityForce`, the mass cancelling — touching nothing else, or (otherwise)
sets `velocity.x` to exactly `0`, touching nothing else.  Here
`1 / inverseMass` is the `mass` getter's value on a movable ball. -/
theorem groundFriction_policy (b : Ball) (h μ g : ℚ)
    (hm : 0 < b.inverseMass)
    (hg : b.position.y + b.radius ≥ h - 1/2) :
    (1/1000 < |b.velocity.x| →
      (groundFrictionStep b h μ g).acceleration.x =
        b.acceleration.x +
          -jsSign b.velocity.x * (μ * (1 / b.inverseMass) * g) * b.inverseMass ∧
      (groundFrictionStep b h μ g).acceleration.x =
        b.acceleration.x - jsSign b.velocity.x * (μ * g) ∧
      (groundFrictionStep b h μ g).acceleration.y = b.acceleration.y ∧
      (groundFrictionStep b h μ g).velocity = b.velocity ∧
      (groundFrictionStep b h μ g).position = b.position) ∧
    (¬ 1/1000 < |b.velocity.x| →
      (groundFrictionStep b h μ g).velocity.x = 0 ∧
      (groundFrictionStep b h μ g).velocity.y = b.velocity.y ∧
      (groundFrictionStep b h μ g).position = b.position ∧
      (groundFrictionStep b h μ g).acceleration = b.acceleration) := by
  have hguard : b.position.y + b.radius ≥ h - 1/2 ∧ 0 < b.inverseMass :=
    ⟨hg, hm⟩
  have him : b.inverseMass ≠ 0 := ne_of_gt hm
  constructor
  · intro hv
    simp only [groundFrictionStep, if_pos hguard, if_pos hv, Ball.applyForce,
      if_neg (not_le.mpr hm)]
    refine ⟨by trivial, ?_, ?_, by trivial, by trivial⟩
    · show b.acceleration.x +
          -jsSign b.velocity.x * (μ * (1 / b.inverseMass) * g) * b.inverseMass =
        b.acceleration.x - jsSign b.velocity.x * (μ * g)
      field_simp
      ring
    · show b.acceleration.y + 0 * b.inverseMass = b.acceleration.y
      ring
  · intro hv
    simp only [groundFrictionStep, if_pos hguard, if_neg hv]
    exact ⟨by trivial, by trivial, by trivial, by trivial⟩

/-- A movable ball resting on the ground of a 600-high canvas, sliding right
at speed 10. -/
def slidingBall : Ball := ⟨⟨100, 550⟩, ⟨10, -3⟩, ⟨0, 0⟩, 1/5, 7/10, 50⟩

/-- Witness for C7: the sliding ball receives the friction deceleration
`-1 * (3/10 * 600)` in its accumulator and its velocity and position are
untouched. -/
theorem groundFriction_policy_witness :
    (groundFrictionStep slidingBall 600 (3/10) 600).acceleration.x =
      slidingBall.acceleration.x -
        jsSign slidingBall.velocity.x * (3/10 * 600) ∧
    (groundFrictionStep slidingBall 600 (3/10) 600).velocity =
      slidingBall.velocity :=
  ⟨((groundFriction_policy slidingBall 600 (3/10) 600
        (by norm_num [slidingBall]) (by norm_num [slidingBall])).1
      (by norm_num [slidingBall])).2.1,
    ((groundFriction_policy slidingBall 600 (3/10) 600
        (by norm_num [slidingBall]) (by norm_num [slidingBall])).1
      (by norm_num [slidingBall])).2.2.2.1⟩
